import Mathlib

/-
Verification of the etherocean radio-tuning engine.

The repository implements a simulated analog radio: a Gaussian tuning
model maps a dial position to per-station volumes, a mix engine drives
per-source gains and noise beds, a whistle synthesizer produces
heterodyne interference tones, and a power/fade sequencer drives a
master-volume fade-in.

This file embeds the relevant source functions shallowly:
  - calculateStationVolume, updateMixing, fadeInMasterVolume,
    stopAllTracks, togglePower, onDialPositionChange from
    src/radio-audio.js (the current revision of the RadioAudio class);
  - the older top-K revision of updateMixing from src/unnamed/part_000
    (named updateMixingTopK here);
  - the RadioWhistles class from src/radio-whistles.js
    (whistle parameter/gain pipeline, voice creation and automation).
Numbers are modelled as real numbers; audio-graph nodes are modelled by
recording the last value or automation target written to them; the
setInterval fade timer is modelled by a fadeActive flag plus an explicit
clock field, with one fadeStep application per timer callback.
-/

/-- A station record, as parsed from the station catalog
(id, dial position, strength, tuning width sigma). -/
structure Station where
  id : String
  position : ℝ
  strength : ℝ
  sigma : ℝ

/-- A station playback track: the streaming source handle created by
createStreamingTrack, with its ready/playing flags and the value last
written to its gain node. -/
structure Track where
  stationId : String
  isReady : Bool
  isPlaying : Bool
  gain : ℝ

/-- An id/volume pair as pushed onto the stationVolumes array inside
updateMixing (the track reference is re-resolved by id here). -/
structure StationVolume where
  id : String
  volume : ℝ

/-- Gaussian tuning model (calculateStationVolume in radio-audio.js):
strength * exp(-(distance^2) / (2 * sigma^2)) clamped to [0, 1]. -/
noncomputable def calculateStationVolume (station : Station) (dialPosition : ℝ) : ℝ :=
  let distance := |dialPosition - station.position|
  let sigma := station.sigma
  let strength := station.strength
  let volume := strength * Real.exp (-(distance * distance) / (2 * sigma * sigma))
  max 0 (min 1 volume)

/-- Claim C2: for a station with 0 <= strength <= 1 and sigma > 0, the tuning
volume equals the Gaussian strength * exp(-(d - position)^2 / (2 sigma^2))
clamped to [0,1]; it satisfies 0 <= volume <= strength <= 1 at every dial
position, and equals strength exactly at the station center. -/
theorem c2_gaussian_volume_spec (s : Station) (d : ℝ)
    (h0 : 0 ≤ s.strength) (h1 : s.strength ≤ 1) (hs : 0 < s.sigma) :
    calculateStationVolume s d =
      max 0 (min 1 (s.strength *
        Real.exp (-((d - s.position) ^ 2) / (2 * s.sigma ^ 2)))) ∧
    0 ≤ calculateStationVolume s d ∧
    calculateStationVolume s d ≤ s.strength ∧
    s.strength ≤ 1 ∧
    calculateStationVolume s s.position = s.strength := by
  have habs : |d - s.position| * |d - s.position| = (d - s.position) ^ 2 := by
    rw [← abs_mul, ← sq, abs_sq]
  have hform : calculateStationVolume s d =
      max 0 (min 1 (s.strength *
        Real.exp (-((d - s.position) ^ 2) / (2 * s.sigma ^ 2)))) := by
    simp only [calculateStationVolume]
    rw [habs, sq]
    ring_nf
  refine ⟨hform, ?_, ?_, h1, ?_⟩
  · unfold calculateStationVolume
    exact le_max_left 0 _
  · have hexp : Real.exp (-((d - s.position) ^ 2) / (2 * s.sigma ^ 2)) ≤ 1 := by
      rw [Real.exp_le_one_iff]
      apply div_nonpos_of_nonpos_of_nonneg
      · simp [sq_nonneg]
      · positivity
    have hv : s.strength * Real.exp (-((d - s.position) ^ 2) / (2 * s.sigma ^ 2))
        ≤ s.strength := by
      calc s.strength * Real.exp (-((d - s.position) ^ 2) / (2 * s.sigma ^ 2))
          ≤ s.strength * 1 := by
            exact mul_le_mul_of_nonneg_left hexp h0
        _ = s.strength := mul_one _
    rw [hform]
    exact max_le h0 (le_trans (min_le_right 1 _) hv)
  · simp only [calculateStationVolume, sub_self, abs_zero, mul_zero, zero_mul,
      neg_zero, zero_div, Real.exp_zero, mul_one]
    rw [min_eq_right h1, max_eq_right h0]

/-- Witness for C2: Scenario A station (position 50, sigma 2, strength 0.9)
evaluated at its center gives volume 0.9. -/
theorem c2_gaussian_volume_spec_witness :
    (0 : ℝ) ≤ 0.9 ∧ (0.9 : ℝ) ≤ 1 ∧ (0 : ℝ) < 2 ∧
    calculateStationVolume ⟨"scenarioA", 50, 0.9, 2⟩ 50 = 0.9 := by
  refine ⟨by norm_num, by norm_num, by norm_num, ?_⟩
  exact (c2_gaussian_volume_spec ⟨"scenarioA", 50, 0.9, 2⟩ 50
    (by norm_num) (by norm_num) (by norm_num)).2.2.2.2

/-
Stable descending sort, modelling the JS Array.prototype.sort calls
stationVolumes.sort((a, b) => b.volume - a.volume) and
stationWhistles.sort((a, b) => b.gain - a.gain): a stable sort that
orders entries by the given key, highest first.
-/

/-- Insert an element into a list sorted by descending key, after every
element whose key is at least as large (stable insertion). -/
noncomputable def insertDescBy {α : Type} (key : α → ℝ) (e : α) : List α → List α
  | [] => [e]
  | f :: rest => if key f ≤ key e then e :: f :: rest else f :: insertDescBy key e rest

/-- Stable sort by descending key (model of the JS comparator sorts). -/
noncomputable def sortDescBy {α : Type} (key : α → ℝ) : List α → List α
  | [] => []
  | e :: rest => insertDescBy key e (sortDescBy key rest)

theorem length_insertDescBy {α : Type} (key : α → ℝ) (e : α) (l : List α) :
    (insertDescBy key e l).length = l.length + 1 := by
  induction l with
  | nil => rfl
  | cons f rest ih =>
    simp only [insertDescBy]
    split
    · simp
    · simp [ih]

theorem length_sortDescBy {α : Type} (key : α → ℝ) (l : List α) :
    (sortDescBy key l).length = l.length := by
  induction l with
  | nil => rfl
  | cons e rest ih => simp [sortDescBy, length_insertDescBy, ih]

theorem mem_insertDescBy {α : Type} (key : α → ℝ) (e a : α) (l : List α) :
    a ∈ insertDescBy key e l ↔ a = e ∨ a ∈ l := by
  induction l with
  | nil => simp [insertDescBy]
  | cons f rest ih =>
    simp only [insertDescBy]
    split
    · simp [List.mem_cons]
    · simp [List.mem_cons, ih]
      tauto

theorem mem_sortDescBy {α : Type} (key : α → ℝ) (a : α) (l : List α) :
    a ∈ sortDescBy key l ↔ a ∈ l := by
  induction l with
  | nil => simp [sortDescBy]
  | cons e rest ih =>
    simp [sortDescBy, mem_insertDescBy, ih, List.mem_cons]

/-
Whistle synthesizer (src/radio-whistles.js). The per-update computation in
updateWhistlesForDial is embedded as a pure pipeline: whistleParams is the
first loop (deadband / frequency / safety clamp), whistleApplyGain the second
loop (edge-gated Gaussian gain), keptWhistles / whistleScaleFactor /
appliedWhistleGains the selection and global-ceiling stage.
-/

/-- The whistle configuration fields of the RadioWhistles class. -/
structure WhistleConfig where
  whistleScaleHzPerUnit : ℝ
  whistleEdgeWidth : ℝ
  whistleMaxGain : ℝ
  whistleCenterDeadband : ℝ
  whistleRampMs : ℝ
  whistleMaxSimultaneous : ℕ
  whistleGlobalCeiling : ℝ
  whistleMaxSafeFreq : ℝ

/-- One entry of the stationWhistles array built inside updateWhistlesForDial. -/
structure WhistleCalc where
  stationId : String
  frequency : ℝ
  gain : ℝ
  offset : ℝ
  gainReduction : ℝ

/-- First loop of updateWhistlesForDial: offset, deadband test, frequency
scaling and the safety-ceiling clamp with its sqrt gain reduction.
In the deadband branch the JS object carries no gainReduction field and that
field is never read there (the gain loop is gated on frequency > 0); we store
1 in that branch. -/
noncomputable def whistleParams (cfg : WhistleConfig) (dialPosition : ℝ)
    (station : Station) : WhistleCalc :=
  let offset := |dialPosition - station.position|
  if offset < cfg.whistleCenterDeadband then
    { stationId := station.id, frequency := 0, gain := 0, offset := offset,
      gainReduction := 1 }
  else
    let frequency := offset * cfg.whistleScaleHzPerUnit
    if cfg.whistleMaxSafeFreq < frequency then
      { stationId := station.id, frequency := cfg.whistleMaxSafeFreq, gain := 0,
        offset := offset,
        gainReduction := Real.sqrt (cfg.whistleMaxSafeFreq / frequency) }
    else
      { stationId := station.id, frequency := frequency, gain := 0,
        offset := offset, gainReduction := 1 }

/-- Second loop of updateWhistlesForDial: for entries with positive frequency,
gain = whistleMaxGain * exp(-0.5 * (offset/edgeWidth)^2), multiplied by the
gain reduction and, when the station is found in the list, by its strength. -/
noncomputable def whistleApplyGain (cfg : WhistleConfig) (stations : List Station)
    (w : WhistleCalc) : WhistleCalc :=
  if 0 < w.frequency then
    let proximity := Real.exp (-0.5 * (w.offset / cfg.whistleEdgeWidth) ^ 2)
    let gain0 := cfg.whistleMaxGain * proximity
    let gain1 := gain0 * w.gainReduction
    let gain2 := match stations.find? (fun s => s.id == w.stationId) with
      | some s => gain1 * s.strength
      | none => gain1
    { w with gain := gain2 }
  else w

/-- The whistle targets computed for every station in one update cycle. -/
noncomputable def whistleTargets (cfg : WhistleConfig) (dialPosition : ℝ)
    (stations : List Station) : List WhistleCalc :=
  (stations.map (whistleParams cfg dialPosition)).map (whistleApplyGain cfg stations)

/-- Selection stage: sort by gain, highest first, and keep at most
whistleMaxSimultaneous entries (the selectedWhistles slice). -/
noncomputable def keptWhistles (cfg : WhistleConfig)
    (stationWhistles : List WhistleCalc) : List WhistleCalc :=
  (sortDescBy (fun w => w.gain) stationWhistles).take cfg.whistleMaxSimultaneous

/-- The unscaled gain sum over the kept set (totalGain in the source). -/
noncomputable def whistleTotalGain (cfg : WhistleConfig)
    (stationWhistles : List WhistleCalc) : ℝ :=
  ((keptWhistles cfg stationWhistles).map (fun w => w.gain)).sum

/-- The uniform scale factor: globalCeiling / totalGain when the total
exceeds the ceiling, otherwise 1. -/
noncomputable def whistleScaleFactor (cfg : WhistleConfig)
    (stationWhistles : List WhistleCalc) : ℝ :=
  if cfg.whistleGlobalCeiling < whistleTotalGain cfg stationWhistles then
    cfg.whistleGlobalCeiling / whistleTotalGain cfg stationWhistles
  else 1

/-- The gains actually applied to the kept whistles (scaledGain in the loop
over selectedWhistles). -/
noncomputable def appliedWhistleGains (cfg : WhistleConfig)
    (stationWhistles : List WhistleCalc) : List ℝ :=
  (keptWhistles cfg stationWhistles).map
    (fun w => w.gain * whistleScaleFactor cfg stationWhistles)

theorem sum_map_mul_fixed {α : Type} (f : α → ℝ) (c : ℝ) (l : List α) :
    (l.map (fun a => f a * c)).sum = (l.map f).sum * c := by
  induction l with
  | nil => simp
  | cons a rest ih => simp [ih, add_mul]

/-- Claim C5: per station and whistle update, inside the deadband the target
frequency and gain are both 0; otherwise the target frequency is
offset * scaleHzPerUnit, and when that product exceeds the safety ceiling the
frequency is clamped to the ceiling and the gain picks up the factor
sqrt(ceiling / rawFrequency). -/
theorem c5_whistle_deadband_and_clamp (cfg : WhistleConfig) (stations : List Station)
    (s : Station) (d : ℝ)
    (hfind : stations.find? (fun t => t.id == s.id) = some s)
    (hdb : 0 < cfg.whistleCenterDeadband)
    (hscale : 0 < cfg.whistleScaleHzPerUnit)
    (hceil : 0 < cfg.whistleMaxSafeFreq) :
    (|d - s.position| < cfg.whistleCenterDeadband →
      (whistleApplyGain cfg stations (whistleParams cfg d s)).frequency = 0 ∧
      (whistleApplyGain cfg stations (whistleParams cfg d s)).gain = 0) ∧
    (cfg.whistleCenterDeadband ≤ |d - s.position| →
      |d - s.position| * cfg.whistleScaleHzPerUnit ≤ cfg.whistleMaxSafeFreq →
      (whistleApplyGain cfg stations (whistleParams cfg d s)).frequency =
        |d - s.position| * cfg.whistleScaleHzPerUnit ∧
      (whistleApplyGain cfg stations (whistleParams cfg d s)).gain =
        cfg.whistleMaxGain *
          Real.exp (-0.5 * (|d - s.position| / cfg.whistleEdgeWidth) ^ 2) *
          s.strength) ∧
    (cfg.whistleCenterDeadband ≤ |d - s.position| →
      cfg.whistleMaxSafeFreq < |d - s.position| * cfg.whistleScaleHzPerUnit →
      (whistleApplyGain cfg stations (whistleParams cfg d s)).frequency =
        cfg.whistleMaxSafeFreq ∧
      (whistleApplyGain cfg stations (whistleParams cfg d s)).gain =
        cfg.whistleMaxGain *
          Real.exp (-0.5 * (|d - s.position| / cfg.whistleEdgeWidth) ^ 2) *
          Real.sqrt (cfg.whistleMaxSafeFreq /
            (|d - s.position| * cfg.whistleScaleHzPerUnit)) *
          s.strength) := by
  refine ⟨?_, ?_, ?_⟩
  · intro h
    simp only [whistleParams, if_pos h, whistleApplyGain]
    norm_num
  · intro hge hle
    have hnot : ¬ (|d - s.position| < cfg.whistleCenterDeadband) := not_lt.mpr hge
    have hnot2 : ¬ (cfg.whistleMaxSafeFreq <
        |d - s.position| * cfg.whistleScaleHzPerUnit) := not_lt.mpr hle
    have hpos : 0 < |d - s.position| * cfg.whistleScaleHzPerUnit :=
      mul_pos (lt_of_lt_of_le hdb hge) hscale
    simp only [whistleParams, if_neg hnot, if_neg hnot2, whistleApplyGain,
      if_pos hpos, hfind]
    constructor
    · trivial
    · ring_nf
  · intro hge hgt
    have hnot : ¬ (|d - s.position| < cfg.whistleCenterDeadband) := not_lt.mpr hge
    simp only [whistleParams, if_neg hnot, if_pos hgt, whistleApplyGain,
      if_pos hceil, hfind]
    constructor
    · trivial
    · ring_nf

/-- Witness for C5: Scenario C with the default configuration (scale 1000
Hz per unit, ceiling 8000 Hz, deadband 1): a station at position 0 seen from
dial position 9 has raw frequency 9000 above the ceiling, so the target
frequency is clamped to 8000 and the gain carries the factor
sqrt(8000 / 9000). -/
theorem c5_whistle_deadband_and_clamp_witness :
    List.find? (fun t => t.id == "w1") [(⟨"w1", 0, 1, 4⟩ : Station)] =
      some (⟨"w1", 0, 1, 4⟩ : Station) ∧
    (0 : ℝ) < 1 ∧ (0 : ℝ) < 1000 ∧ (0 : ℝ) < 8000 ∧
    (1 : ℝ) ≤ |(9 : ℝ) - 0| ∧ (8000 : ℝ) < |(9 : ℝ) - 0| * 1000 ∧
    (whistleApplyGain ⟨1000, 2, 0.03, 1, 60, 3, 0.15, 8000⟩ [⟨"w1", 0, 1, 4⟩]
      (whistleParams ⟨1000, 2, 0.03, 1, 60, 3, 0.15, 8000⟩ 9 ⟨"w1", 0, 1, 4⟩)).frequency
      = 8000 ∧
    (whistleApplyGain ⟨1000, 2, 0.03, 1, 60, 3, 0.15, 8000⟩ [⟨"w1", 0, 1, 4⟩]
      (whistleParams ⟨1000, 2, 0.03, 1, 60, 3, 0.15, 8000⟩ 9 ⟨"w1", 0, 1, 4⟩)).gain
      = 0.03 * Real.exp (-0.5 * (|(9 : ℝ) - 0| / 2) ^ 2) *
        Real.sqrt (8000 / (|(9 : ℝ) - 0| * 1000)) * 1 := by
  have habs : |(9 : ℝ) - 0| = 9 := by
    rw [sub_zero]
    exact abs_of_nonneg (by norm_num)
  have hfind : List.find? (fun t => t.id == "w1") [(⟨"w1", 0, 1, 4⟩ : Station)] =
      some (⟨"w1", 0, 1, 4⟩ : Station) := rfl
  have hge : (1 : ℝ) ≤ |(9 : ℝ) - 0| := by rw [habs]; norm_num
  have hgt : (8000 : ℝ) < |(9 : ℝ) - 0| * 1000 := by rw [habs]; norm_num
  have h := (c5_whistle_deadband_and_clamp ⟨1000, 2, 0.03, 1, 60, 3, 0.15, 8000⟩
    [⟨"w1", 0, 1, 4⟩] ⟨"w1", 0, 1, 4⟩ 9 hfind
    (by norm_num) (by norm_num) (by norm_num)).2.2 hge hgt
  exact ⟨hfind, by norm_num, by norm_num, by norm_num, hge, hgt, h.1, h.2⟩

/-- Claim C6: after ranking by gain and keeping at most maxSimultaneous
whistles, the sum of the applied gains never exceeds the global ceiling, and
whenever the unscaled sum exceeds the ceiling every kept gain is scaled by
the one uniform factor ceiling / totalGain so the applied sum equals the
ceiling exactly. -/
theorem c6_whistle_ceiling_normalization (cfg : WhistleConfig)
    (ws : List WhistleCalc) (hc : 0 ≤ cfg.whistleGlobalCeiling) :
    (appliedWhistleGains cfg ws).sum ≤ cfg.whistleGlobalCeiling ∧
    (cfg.whistleGlobalCeiling < whistleTotalGain cfg ws →
      (appliedWhistleGains cfg ws).sum = cfg.whistleGlobalCeiling) := by
  have hsum : (appliedWhistleGains cfg ws).sum =
      whistleTotalGain cfg ws * whistleScaleFactor cfg ws := by
    unfold appliedWhistleGains whistleTotalGain
    exact sum_map_mul_fixed _ _ _
  by_cases h : cfg.whistleGlobalCeiling < whistleTotalGain cfg ws
  · have hT : whistleTotalGain cfg ws ≠ 0 := ne_of_gt (lt_of_le_of_lt hc h)
    have heq : (appliedWhistleGains cfg ws).sum = cfg.whistleGlobalCeiling := by
      rw [hsum, whistleScaleFactor, if_pos h, mul_comm, div_mul_cancel₀ _ hT]
    exact ⟨le_of_eq heq, fun _ => heq⟩
  · have heq : (appliedWhistleGains cfg ws).sum = whistleTotalGain cfg ws := by
      rw [hsum, whistleScaleFactor, if_neg h, mul_one]
    exact ⟨heq ▸ le_of_not_lt h, fun hlt => absurd hlt h⟩

/-- Witness for C6: the default global ceiling 0.15 is nonnegative, and the
ceiling property holds for a concrete pair of whistle entries whose gains
sum to 0.5. -/
theorem c6_whistle_ceiling_normalization_witness :
    (0 : ℝ) ≤ (0.15 : ℝ) ∧
    ((appliedWhistleGains ⟨1000, 2, 0.03, 1, 60, 3, 0.15, 8000⟩
        [⟨"a", 5000, 0.2, 5, 1⟩, ⟨"b", 6000, 0.3, 6, 1⟩]).sum ≤ 0.15 ∧
      ((0.15 : ℝ) < whistleTotalGain ⟨1000, 2, 0.03, 1, 60, 3, 0.15, 8000⟩
          [⟨"a", 5000, 0.2, 5, 1⟩, ⟨"b", 6000, 0.3, 6, 1⟩] →
        (appliedWhistleGains ⟨1000, 2, 0.03, 1, 60, 3, 0.15, 8000⟩
          [⟨"a", 5000, 0.2, 5, 1⟩, ⟨"b", 6000, 0.3, 6, 1⟩]).sum = 0.15)) :=
  ⟨by norm_num,
    c6_whistle_ceiling_normalization ⟨1000, 2, 0.03, 1, 60, 3, 0.15, 8000⟩
      [⟨"a", 5000, 0.2, 5, 1⟩, ⟨"b", 6000, 0.3, 6, 1⟩] (by norm_num)⟩

/-- A whistle voice: the oscillator+gain pair stored per station id.
freqValue/gainValue model the node values last set directly
(oscillator.frequency.value, gain.setValueAtTime); freqTarget/gainTarget
model the last setTargetAtTime automation targets. -/
structure WhistleVoice where
  freqValue : ℝ
  gainValue : ℝ
  freqTarget : ℝ
  gainTarget : ℝ

/-- The mutable part of the RadioWhistles class: the master toggle, the
configuration, presence of the audio context and whistle bus, and the
whistleOscillators map (stationId -> voice, in insertion order). -/
structure WhistleState where
  whistlesEnabled : Bool
  cfg : WhistleConfig
  ctxPresent : Bool
  busPresent : Bool
  oscillators : List (String × WhistleVoice)

/-- Lazy voice creation (_ensureWhistleForStation): return unchanged if a
voice for the id already exists or the context/bus is missing, otherwise
create and start one oscillator+gain pair at frequency 0, gain 0. -/
def ensureWhistleForStation (w : WhistleState) (stationId : String) : WhistleState :=
  if w.oscillators.any (fun p => p.1 == stationId) then w
  else if !w.ctxPresent || !w.busPresent then w
  else { w with oscillators := w.oscillators ++ [(stationId, ⟨0, 0, 0, 0⟩)] }

/-- Whistle automation (_applyWhistleAutomation): returns unchanged when no
voice exists for the id (the get/early-return at the top); otherwise calls
_ensureWhistleForStation (a no-op at that point), re-fetches the voice, and
ramps frequency (clamped to [0, 22050]) and gain toward the targets. -/
noncomputable def applyWhistleAutomation (w : WhistleState) (stationId : String)
    (freqHz gain _rampTime _currentTime : ℝ) : WhistleState :=
  if !(w.oscillators.any (fun p => p.1 == stationId)) then w
  else
    let w1 := ensureWhistleForStation w stationId
    if !(w1.oscillators.any (fun p => p.1 == stationId)) then w1
    else
      let clampedFreq := max 0 (min freqHz 22050)
      { w1 with oscillators := w1.oscillators.map (fun p =>
          if p.1 == stationId then
            (p.1, { p.2 with freqTarget := clampedFreq, gainTarget := gain })
          else p) }

/-- startWhistleOscillators: eagerly create a voice for every station. -/
def startWhistleOscillators (w : WhistleState) (stations : List Station) : WhistleState :=
  if !w.whistlesEnabled || !w.busPresent then w
  else stations.foldl (fun acc s => ensureWhistleForStation acc s.id) w

/-- stopWhistleOscillators: set every voice gain value to 0. -/
def stopWhistleOscillators (w : WhistleState) : WhistleState :=
  if !w.busPresent then w
  else { w with oscillators := w.oscillators.map (fun p =>
      (p.1, { p.2 with gainValue := 0 })) }

/-- updateWhistlesForDial as a state transformer: compute targets for every
station, keep the top whistleMaxSimultaneous by gain, apply the global
ceiling, emit automation for the kept set, and ramp every other existing
voice to frequency 0, gain 0. -/
noncomputable def updateWhistlesForDial (w : WhistleState) (dialPosition : ℝ)
    (stations : List Station) (isPoweredOn : Bool) : WhistleState :=
  if !w.whistlesEnabled || !w.busPresent || !isPoweredOn then w
  else
    let rampTime := w.cfg.whistleRampMs / 1000
    let stationWhistles := whistleTargets w.cfg dialPosition stations
    let selected := keptWhistles w.cfg stationWhistles
    let scale := whistleScaleFactor w.cfg stationWhistles
    let w1 := selected.foldl (fun acc wc =>
      applyWhistleAutomation acc wc.stationId wc.frequency (wc.gain * scale)
        rampTime 0) w
    let selectedIds := selected.map (fun wc => wc.stationId)
    (w1.oscillators.map Prod.fst).foldl (fun acc sid =>
      if selectedIds.contains sid then acc
      else applyWhistleAutomation acc sid 0 0 rampTime 0) w1

/-- Number of voices stored for a station id. -/
def voiceCount (w : WhistleState) (stationId : String) : ℕ :=
  (w.oscillators.filter (fun p => p.1 == stationId)).length

theorem voiceCount_eq_zero (w : WhistleState) (sid : String) :
    voiceCount w sid = 0 ↔ w.oscillators.any (fun p => p.1 == sid) = false := by
  unfold voiceCount
  rw [List.length_eq_zero, List.filter_eq_nil_iff, List.any_eq_false]

/-- Counterexample for C9: with no voice stored for station id s1, applying
whistle automation for s1 leaves the whistle system completely unchanged --
in particular no oscillator+gain pair is created before (or after) the
automation, so automation does not lazily create voices. -/
theorem c9_lazy_creation_counterexample :
    applyWhistleAutomation
        ⟨true, ⟨1000, 2, 0.03, 1, 60, 3, 0.15, 8000⟩, true, true, []⟩
        "s1" 440 0.02 0.06 0
      = ⟨true, ⟨1000, 2, 0.03, 1, 60, 3, 0.15, 8000⟩, true, true, []⟩ ∧
    voiceCount (applyWhistleAutomation
        ⟨true, ⟨1000, 2, 0.03, 1, 60, 3, 0.15, 8000⟩, true, true, []⟩
        "s1" 440 0.02 0.06 0) "s1" = 0 := by
  constructor
  · rfl
  · rfl

/-- Claim C9 (amended): voice creation is idempotent and keeps exactly one
oscillator+gain pair per station id -- ensuring a voice that already exists
changes nothing, ensuring twice equals ensuring once, and creating from zero
voices yields exactly one -- but whistle automation for a station id with no
existing voice is a no-op: it neither creates a voice nor applies automation
(voices are created eagerly by startWhistleOscillators, not lazily by
automation). -/
theorem c9_voice_creation_idempotent (w : WhistleState) (sid : String)
    (freqHz gain rampTime currentTime : ℝ) :
    (w.oscillators.any (fun p => p.1 == sid) = true →
      ensureWhistleForStation w sid = w) ∧
    ensureWhistleForStation (ensureWhistleForStation w sid) sid =
      ensureWhistleForStation w sid ∧
    (voiceCount w sid = 0 → w.ctxPresent = true → w.busPresent = true →
      voiceCount (ensureWhistleForStation w sid) sid = 1) ∧
    (voiceCount w sid = 0 →
      applyWhistleAutomation w sid freqHz gain rampTime currentTime = w) := by
  refine ⟨?_, ?_, ?_, ?_⟩
  · intro h
    unfold ensureWhistleForStation
    rw [if_pos h]
  · by_cases h : w.oscillators.any (fun p => p.1 == sid) = true
    · have he : ensureWhistleForStation w sid = w := by
        unfold ensureWhistleForStation
        rw [if_pos h]
      rw [he, he]
    · by_cases hg : (!w.ctxPresent || !w.busPresent) = true
      · have he : ensureWhistleForStation w sid = w := by
          unfold ensureWhistleForStation
          rw [if_neg h, if_pos hg]
        rw [he, he]
      · have he : ensureWhistleForStation w sid =
            { w with oscillators := w.oscillators ++ [(sid, ⟨0, 0, 0, 0⟩)] } := by
          unfold ensureWhistleForStation
          rw [if_neg h, if_neg hg]
        rw [he]
        unfold ensureWhistleForStation
        rw [if_pos]
        simp [List.any_append]
  · intro h0 hctx hbus
    have hany : w.oscillators.any (fun p => p.1 == sid) = false :=
      (voiceCount_eq_zero w sid).mp h0
    have hg : ¬ ((!w.ctxPresent || !w.busPresent) = true) := by
      rw [hctx, hbus]
      simp
    have he : ensureWhistleForStation w sid =
        { w with oscillators := w.oscillators ++ [(sid, ⟨0, 0, 0, 0⟩)] } := by
      unfold ensureWhistleForStation
      rw [if_neg (by rw [hany]; simp), if_neg hg]
    rw [he]
    unfold voiceCount at h0 ⊢
    rw [List.filter_append]
    rw [List.length_eq_zero] at h0
    simp [h0]
  · intro h0
    have hany : w.oscillators.any (fun p => p.1 == sid) = false :=
      (voiceCount_eq_zero w sid).mp h0
    unfold applyWhistleAutomation
    rw [if_pos (by rw [hany]; rfl)]

/-- Witness for C9: starting from a whistle system with no voices, ensuring
voice s1 once creates exactly one voice, ensuring twice equals ensuring once,
and automation on the voiceless state is a no-op. -/
theorem c9_voice_creation_idempotent_witness :
    voiceCount ⟨true, ⟨1000, 2, 0.03, 1, 60, 3, 0.15, 8000⟩, true, true, []⟩ "s1" = 0 ∧
    ensureWhistleForStation (ensureWhistleForStation
        ⟨true, ⟨1000, 2, 0.03, 1, 60, 3, 0.15, 8000⟩, true, true, []⟩ "s1") "s1" =
      ensureWhistleForStation
        ⟨true, ⟨1000, 2, 0.03, 1, 60, 3, 0.15, 8000⟩, true, true, []⟩ "s1" ∧
    voiceCount (ensureWhistleForStation
        ⟨true, ⟨1000, 2, 0.03, 1, 60, 3, 0.15, 8000⟩, true, true, []⟩ "s1") "s1" = 1 ∧
    applyWhistleAutomation
        ⟨true, ⟨1000, 2, 0.03, 1, 60, 3, 0.15, 8000⟩, true, true, []⟩
        "s1" 500 0.01 0.06 0 =
      ⟨true, ⟨1000, 2, 0.03, 1, 60, 3, 0.15, 8000⟩, true, true, []⟩ := by
  have h := c9_voice_creation_idempotent
    ⟨true, ⟨1000, 2, 0.03, 1, 60, 3, 0.15, 8000⟩, true, true, []⟩ "s1" 500 0.01 0.06 0
  exact ⟨rfl, h.2.1, h.2.2.1 rfl rfl rfl, h.2.2.2 rfl⟩

/-
RadioAudio state (src/radio-audio.js, and the older revision in
src/unnamed/part_000). Gain nodes are modelled by their last set value;
the noise tracks of both revisions are present as optional (hasX flag plus
gain) so that each updateMixing revision updates exactly the tracks its
revision loads; the setInterval fade timer of fadeInMasterVolume is
modelled by fadeActive together with the captured fadeStart and the
audioContext.currentTime clock in the time field.
-/

/-- The RadioAudio instance state. -/
structure RadioState where
  ctxPresent : Bool
  ctxRunning : Bool
  isPoweredOn : Bool
  dialPosition : ℝ
  masterVolume : ℝ
  maxConstantNoiseVolume : ℝ
  maxEtherNoiseVolume : ℝ
  etherBaselineVolume : ℝ
  etherAMStaticVolume : ℝ
  startupFadeDuration : ℝ
  stations : List Station
  stationTracks : List Track
  hasConstantNoise : Bool
  hasEtherNoise : Bool
  hasEtherBaseline : Bool
  hasEtherAMStatic : Bool
  constantGain : ℝ
  etherGain : ℝ
  etherBaselineGain : ℝ
  etherAMStaticGain : ℝ
  hasWhistleSystem : Bool
  whistles : WhistleState
  fadeActive : Bool
  fadeStart : ℝ
  time : ℝ

/-- The stationVolumes array built at the top of updateMixing: one id/volume
entry per station that has a track. -/
noncomputable def stationVolumesOf (stations : List Station) (tracks : List Track)
    (dialPosition : ℝ) : List StationVolume :=
  stations.filterMap (fun station =>
    if tracks.any (fun t => t.stationId == station.id) then
      some ⟨station.id, calculateStationVolume station dialPosition⟩
    else none)

/-- stationVolumes after the in-place sort by volume, highest first. -/
noncomputable def sortedStationVolumes (stations : List Station) (tracks : List Track)
    (dialPosition : ℝ) : List StationVolume :=
  sortDescBy (fun sv => sv.volume) (stationVolumesOf stations tracks dialPosition)

/-- The top-K selector of the part_000 revision: the first 3 entries of the
volume-sorted station list (stationVolumes.slice(0, 3)). -/
noncomputable def topKEntries (stations : List Station) (tracks : List Track)
    (dialPosition : ℝ) : List StationVolume :=
  (sortedStationVolumes stations tracks dialPosition).take 3

/-- Math.max over a nonempty volume list, 0 for an empty one (the guarded
Math.max(...) expression). -/
noncomputable def listMaxOrZero : List ℝ → ℝ
  | [] => 0
  | v :: rest => rest.foldl max v

/-- Per-track body of the current updateMixing loop: start the track if it is
ready and not yet playing, then set its gain to the scaled volume. -/
def updTrackCurrent (scaledVolume : ℝ) (t : Track) : Track :=
  let t1 := if t.isReady && !t.isPlaying then { t with isPlaying := true } else t
  { t1 with gain := scaledVolume }

/-- Per-track body of the part_000 updateMixing loop: when the track is
ready, start it if selected and not playing, stop it if unselected and
playing; then set its gain (0 when unselected). -/
def updTrackTopK (isTopK : Bool) (scaledVolume : ℝ) (t : Track) : Track :=
  let t1 :=
    if t.isReady then
      if isTopK && !t.isPlaying then { t with isPlaying := true }
      else if !isTopK && t.isPlaying then { t with isPlaying := false }
      else t
    else t
  { t1 with gain := scaledVolume }

/-- The per-entry update of the current updateMixing loop body. -/
def currentUpd (masterVolume : ℝ) (sv : StationVolume) (t : Track) : Track :=
  updTrackCurrent (sv.volume * masterVolume) t

/-- The per-entry update of the part_000 updateMixing loop body: volume
scaled by master volume when selected, 0 otherwise. -/
def topKUpd (topKIds : List String) (masterVolume : ℝ) (sv : StationVolume)
    (t : Track) : Track :=
  updTrackTopK (topKIds.contains sv.id)
    (if topKIds.contains sv.id then sv.volume * masterVolume else 0) t

/-- The loop over stationVolumes of either updateMixing revision: each entry
updates the track with the matching id (the JS loop mutates the captured
track object of the Map). -/
noncomputable def applyTrackUpdates (upd : StationVolume → Track → Track)
    (svs : List StationVolume) (ts : List Track) : List Track :=
  svs.foldl (fun acc sv => acc.map (fun t =>
    if t.stationId == sv.id then upd sv t else t)) ts

/-- updateMixing of the current revision (src/radio-audio.js lines 375-437):
no-op unless the audio context exists and is running; records the dial
position; starts every ready non-playing station track and sets every track
gain to volume * masterVolume; drives the single ether-noise bed by
maxEther * (1 - maxStationVolume) * masterVolume and the constant bed by
masterVolume; finally updates whistle automation when the whistle system
exists. -/
noncomputable def updateMixing (st : RadioState) (dialPosition : ℝ) : RadioState :=
  if !st.ctxPresent || !st.ctxRunning then st
  else
    let st1 := { st with dialPosition := dialPosition }
    let stationVolumes := sortedStationVolumes st1.stations st1.stationTracks dialPosition
    let newTracks := applyTrackUpdates (currentUpd st1.masterVolume)
      stationVolumes st1.stationTracks
    let maxStationVolume := listMaxOrZero (stationVolumes.map (fun sv => sv.volume))
    let etherVolume := st1.maxEtherNoiseVolume * (1 - maxStationVolume) * st1.masterVolume
    let st2 := { st1 with
      stationTracks := newTracks,
      etherGain := if st1.hasEtherNoise then etherVolume else st1.etherGain,
      constantGain := if st1.hasConstantNoise then
          st1.maxConstantNoiseVolume * st1.masterVolume
        else st1.constantGain }
    if st2.hasWhistleSystem then
      { st2 with whistles :=
          updateWhistlesForDial st2.whistles dialPosition st2.stations st2.isPoweredOn }
    else st2

/-- updateMixing of the part_000 revision (src/unnamed/part_000 lines
640-713): same guard, but only the top 3 stations by volume keep playing --
entering ready tracks are started, leaving ready tracks are stopped, and
unselected tracks get gain 0; the two ether beds are driven from the best
selected volume; whistle automation runs on the same instance. -/
noncomputable def updateMixingTopK (st : RadioState) (dialPosition : ℝ) : RadioState :=
  if !st.ctxPresent || !st.ctxRunning then st
  else
    let st1 := { st with dialPosition := dialPosition }
    let stationVolumes := sortedStationVolumes st1.stations st1.stationTracks dialPosition
    let topK := topKEntries st1.stations st1.stationTracks dialPosition
    let topKIds := topK.map (fun sv => sv.id)
    let newTracks := applyTrackUpdates (topKUpd topKIds st1.masterVolume)
      stationVolumes st1.stationTracks
    let maxStationVolume := listMaxOrZero (topK.map (fun sv => sv.volume))
    let etherVolume := st1.maxEtherNoiseVolume * (1 - maxStationVolume) * st1.masterVolume
    let st2 := { st1 with
      stationTracks := newTracks,
      etherBaselineGain := if st1.hasEtherBaseline then
          etherVolume * st1.etherBaselineVolume
        else st1.etherBaselineGain,
      etherAMStaticGain := if st1.hasEtherAMStatic then
          etherVolume * st1.etherAMStaticVolume
        else st1.etherAMStaticGain,
      constantGain := if st1.hasConstantNoise then
          st1.maxConstantNoiseVolume * st1.masterVolume
        else st1.constantGain }
    { st2 with whistles :=
        updateWhistlesForDial st2.whistles dialPosition st2.stations st2.isPoweredOn }

/-- fadeInMasterVolume: capture startTime, set masterVolume to 0 and schedule
the fade interval. -/
def fadeInMasterVolume (st : RadioState) : RadioState :=
  { st with masterVolume := 0, fadeActive := true, fadeStart := st.time }

/-- One callback of the fade interval in fadeInMasterVolume: does nothing if
the interval has been cleared or the context is not running; otherwise sets
masterVolume to min(elapsed / fadeDuration, 1), re-runs updateMixing at the
stored dial position, and clears the interval once progress reaches 1. -/
noncomputable def fadeStep (st : RadioState) : RadioState :=
  if !st.fadeActive then st
  else if !st.ctxRunning then st
  else
    let elapsed := st.time - st.fadeStart
    let progress := min (elapsed / st.startupFadeDuration) 1
    let st1 := { st with masterVolume := progress }
    let st2 := updateMixing st1 st1.dialPosition
    if 1 ≤ progress then { st2 with fadeActive := false } else st2

/-- stopAllTracks: early return when there is no audio context or the radio
is not powered on; otherwise clear the powered flag, pause every station
track and zero its gain, zero every noise-track gain, and stop the whistle
oscillators. -/
noncomputable def stopAllTracks (st : RadioState) : RadioState :=
  if !st.ctxPresent || !st.isPoweredOn then st
  else
    let st1 := { st with isPoweredOn := false }
    let st2 := { st1 with
      stationTracks := st1.stationTracks.map (fun (t : Track) =>
        { t with isPlaying := false, gain := 0 }),
      constantGain := if st1.hasConstantNoise then 0 else st1.constantGain,
      etherGain := if st1.hasEtherNoise then 0 else st1.etherGain,
      etherBaselineGain := if st1.hasEtherBaseline then 0 else st1.etherBaselineGain,
      etherAMStaticGain := if st1.hasEtherAMStatic then 0 else st1.etherAMStaticGain }
    if st2.hasWhistleSystem then
      { st2 with whistles := stopWhistleOscillators st2.whistles }
    else st2

/-- The power-off branch of togglePower: it first sets isPoweredOn to false
and then calls stopAllTracks. -/
noncomputable def togglePowerOff (st : RadioState) : RadioState :=
  stopAllTracks { st with isPoweredOn := false }

/-- onDialPositionChange: run updateMixing only while powered on. -/
noncomputable def onDialPositionChange (st : RadioState) (dialPosition : ℝ) : RadioState :=
  if st.isPoweredOn then updateMixing st dialPosition else st

/-- Number of station tracks currently playing. -/
def playingCount (st : RadioState) : ℕ :=
  (st.stationTracks.filter (fun t => t.isPlaying)).length

/-- A concrete whistle-system state with the default configuration and no
voices, used by concrete instances below. -/
noncomputable def emptyWhistleState : WhistleState :=
  ⟨true, ⟨1000, 2, 0.03, 1, 60, 3, 0.15, 8000⟩, true, true, []⟩

/-- A concrete idle RadioAudio state (defaults of the constructor after a
successful initialization: dial 90, powered off, no fade running). -/
noncomputable def idleState : RadioState := {
  ctxPresent := true, ctxRunning := true, isPoweredOn := false,
  dialPosition := 90, masterVolume := 0,
  maxConstantNoiseVolume := 1, maxEtherNoiseVolume := 0.2,
  etherBaselineVolume := 0.3, etherAMStaticVolume := 0.8,
  startupFadeDuration := 2,
  stations := [], stationTracks := [],
  hasConstantNoise := true, hasEtherNoise := true,
  hasEtherBaseline := false, hasEtherAMStatic := false,
  constantGain := 0, etherGain := 0, etherBaselineGain := 0, etherAMStaticGain := 0,
  hasWhistleSystem := true, whistles := emptyWhistleState,
  fadeActive := false, fadeStart := 0, time := 0 }

theorem updateMixing_preserves_power_fields (st : RadioState) (d : ℝ) :
    (updateMixing st d).masterVolume = st.masterVolume ∧
    (updateMixing st d).fadeActive = st.fadeActive ∧
    (updateMixing st d).fadeStart = st.fadeStart ∧
    (updateMixing st d).time = st.time ∧
    (updateMixing st d).startupFadeDuration = st.startupFadeDuration ∧
    (updateMixing st d).ctxRunning = st.ctxRunning ∧
    (updateMixing st d).ctxPresent = st.ctxPresent ∧
    (updateMixing st d).isPoweredOn = st.isPoweredOn := by
  simp only [updateMixing]
  split
  · exact ⟨rfl, rfl, rfl, rfl, rfl, rfl, rfl, rfl⟩
  · split
    · exact ⟨rfl, rfl, rfl, rfl, rfl, rfl, rfl, rfl⟩
    · exact ⟨rfl, rfl, rfl, rfl, rfl, rfl, rfl, rfl⟩

theorem stopAllTracks_preserves (st : RadioState) :
    (stopAllTracks st).masterVolume = st.masterVolume ∧
    (stopAllTracks st).fadeActive = st.fadeActive ∧
    (stopAllTracks st).fadeStart = st.fadeStart ∧
    (stopAllTracks st).time = st.time ∧
    (stopAllTracks st).startupFadeDuration = st.startupFadeDuration ∧
    (stopAllTracks st).ctxRunning = st.ctxRunning ∧
    (stopAllTracks st).dialPosition = st.dialPosition := by
  simp only [stopAllTracks]
  split
  · exact ⟨rfl, rfl, rfl, rfl, rfl, rfl, rfl⟩
  · split
    · exact ⟨rfl, rfl, rfl, rfl, rfl, rfl, rfl⟩
    · exact ⟨rfl, rfl, rfl, rfl, rfl, rfl, rfl⟩

theorem togglePowerOff_preserves (st : RadioState) :
    (togglePowerOff st).masterVolume = st.masterVolume ∧
    (togglePowerOff st).fadeActive = st.fadeActive ∧
    (togglePowerOff st).fadeStart = st.fadeStart ∧
    (togglePowerOff st).time = st.time ∧
    (togglePowerOff st).startupFadeDuration = st.startupFadeDuration ∧
    (togglePowerOff st).ctxRunning = st.ctxRunning := by
  unfold togglePowerOff
  have h := stopAllTracks_preserves { st with isPoweredOn := false }
  exact ⟨h.1, h.2.1, h.2.2.1, h.2.2.2.1, h.2.2.2.2.1, h.2.2.2.2.2.1⟩

/-- Claim C8: when the audio context is absent or not running, updateMixing
is a silent no-op -- the whole state is unchanged; in particular no track is
started or stopped, no gain is assigned, no whistle automation is emitted,
and the stored dial position keeps its previous value. -/
theorem c8_update_noop_when_not_running (st : RadioState) (d : ℝ)
    (h : st.ctxPresent = false ∨ st.ctxRunning = false) :
    updateMixing st d = st ∧
    (updateMixing st d).dialPosition = st.dialPosition ∧
    (updateMixing st d).stationTracks = st.stationTracks ∧
    (updateMixing st d).whistles = st.whistles := by
  have heq : updateMixing st d = st := by
    rcases h with h | h <;> simp [updateMixing, h]
  exact ⟨heq, by rw [heq], by rw [heq], by rw [heq]⟩

/-- Witness for C8: with the context not running, updateMixing at dial 120
leaves the idle state untouched (dial stays 90). -/
theorem c8_update_noop_when_not_running_witness :
    ({ idleState with ctxRunning := false } : RadioState).ctxRunning = false ∧
    updateMixing { idleState with ctxRunning := false } 120 =
      { idleState with ctxRunning := false } ∧
    (updateMixing { idleState with ctxRunning := false } 120).dialPosition = 90 := by
  have h := c8_update_noop_when_not_running { idleState with ctxRunning := false } 120
    (Or.inr rfl)
  refine ⟨rfl, h.1, ?_⟩
  rw [h.1]
  rfl

/-- Claim C10: while powered off, onDialPositionChange is a complete no-op
for every position -- it performs no mixing and does not record the new
position, so the stored dial position keeps the last value processed while
powered on (or the initial default). -/
theorem c10_dial_change_noop_when_off (st : RadioState) (p : ℝ)
    (h : st.isPoweredOn = false) :
    onDialPositionChange st p = st ∧
    (onDialPositionChange st p).dialPosition = st.dialPosition := by
  have heq : onDialPositionChange st p = st := by
    simp [onDialPositionChange, h]
  exact ⟨heq, by rw [heq]⟩

/-- Witness for C10: the powered-off idle state ignores a dial change to 42
and keeps dial position 90. -/
theorem c10_dial_change_noop_when_off_witness :
    idleState.isPoweredOn = false ∧
    onDialPositionChange idleState 42 = idleState ∧
    (onDialPositionChange idleState 42).dialPosition = 90 := by
  have h := c10_dial_change_noop_when_off idleState 42 rfl
  refine ⟨rfl, h.1, ?_⟩
  rw [h.1]
  rfl

theorem togglePowerOff_eq (st : RadioState) :
    togglePowerOff st = { st with isPoweredOn := false } := by
  unfold togglePowerOff stopAllTracks
  rw [if_pos]
  simp

theorem updateMixing_masterVolume (st : RadioState) (d : ℝ) :
    (updateMixing st d).masterVolume = st.masterVolume :=
  (updateMixing_preserves_power_fields st d).1

theorem updateMixing_fadeActive (st : RadioState) (d : ℝ) :
    (updateMixing st d).fadeActive = st.fadeActive :=
  (updateMixing_preserves_power_fields st d).2.1

theorem fadeStep_masterVolume (st : RadioState)
    (hfa : st.fadeActive = true) (hr : st.ctxRunning = true) :
    (fadeStep st).masterVolume =
      min ((st.time - st.fadeStart) / st.startupFadeDuration) 1 := by
  simp only [fadeStep, hfa, hr, Bool.not_true, Bool.false_eq_true, if_false]
  split <;> simp [updateMixing_masterVolume]

theorem fadeStep_fadeActive (st : RadioState)
    (hfa : st.fadeActive = true) (hr : st.ctxRunning = true) :
    (fadeStep st).fadeActive =
      if (1 : ℝ) ≤ min ((st.time - st.fadeStart) / st.startupFadeDuration) 1 then
        false
      else true := by
  simp only [fadeStep, hfa, hr, Bool.not_true, Bool.false_eq_true, if_false]
  split
  · rfl
  · rw [updateMixing_fadeActive]

/-- A powered-on state mid-fade: fade started at time 0 with duration 2,
master volume 0.4 at time 0.8 (fade progress 0.4). -/
noncomputable def fadingState : RadioState :=
  { idleState with
      isPoweredOn := true
      fadeActive := true
      masterVolume := 0.4
      fadeStart := 0
      time := 0.8 }

/-- Claim C4 (amended): over a single power-on fade-in the master volume
starts at 0; each fade tick with the context running sets it to
min(elapsed / fadeDuration, 1), so it is non-decreasing as the clock
advances; once elapsed reaches fadeDuration the tick sets it to exactly 1
and the timer stops. On power-off, however, the master volume does not
become 0: power-off leaves the masterVolume field unchanged (only the
per-node gains are zeroed, and only when stopAllTracks actually runs). -/
theorem c4_fade_monotone_and_poweroff (st : RadioState) (t1 t2 : ℝ)
    (hfa : st.fadeActive = true) (hr : st.ctxRunning = true)
    (hdur : 0 < st.startupFadeDuration) (h12 : t1 ≤ t2) :
    (fadeInMasterVolume st).masterVolume = 0 ∧
    (fadeStep { st with time := t1 }).masterVolume =
      min ((t1 - st.fadeStart) / st.startupFadeDuration) 1 ∧
    (fadeStep { st with time := t1 }).masterVolume ≤
      (fadeStep { st with time := t2 }).masterVolume ∧
    (st.startupFadeDuration ≤ st.time - st.fadeStart →
      (fadeStep st).masterVolume = 1 ∧ (fadeStep st).fadeActive = false) ∧
    (togglePowerOff st).masterVolume = st.masterVolume := by
  have hm1 : (fadeStep { st with time := t1 }).masterVolume =
      min ((t1 - st.fadeStart) / st.startupFadeDuration) 1 :=
    fadeStep_masterVolume { st with time := t1 } hfa hr
  have hm2 : (fadeStep { st with time := t2 }).masterVolume =
      min ((t2 - st.fadeStart) / st.startupFadeDuration) 1 :=
    fadeStep_masterVolume { st with time := t2 } hfa hr
  refine ⟨rfl, hm1, ?_, ?_, ?_⟩
  · rw [hm1, hm2]
    apply min_le_min _ le_rfl
    exact div_le_div_of_nonneg_right (sub_le_sub_right h12 _) hdur.le
  · intro hc
    have hone : (1 : ℝ) ≤ (st.time - st.fadeStart) / st.startupFadeDuration :=
      (one_le_div hdur).mpr hc
    have hminone : min ((st.time - st.fadeStart) / st.startupFadeDuration) 1 = 1 :=
      min_eq_right hone
    constructor
    · rw [fadeStep_masterVolume st hfa hr, hminone]
    · rw [fadeStep_fadeActive st hfa hr, hminone, if_pos le_rfl]
  · rw [togglePowerOff_eq]

/-- Counterexample for C4: power-off during a fade at master volume 0.4
leaves the master volume at 0.4, not 0 -- togglePower clears the powered
flag before stopAllTracks runs, so the stop guard fires, and even a direct
stopAllTracks call never writes the masterVolume field. -/
theorem c4_poweroff_master_volume_counterexample :
    (togglePowerOff fadingState).masterVolume = 0.4 ∧
    (stopAllTracks fadingState).masterVolume = 0.4 ∧
    (0.4 : ℝ) ≠ 0 := by
  refine ⟨?_, ?_, by norm_num⟩
  · rw [togglePowerOff_eq]
    rfl
  · rw [(stopAllTracks_preserves fadingState).1]
    rfl

/-- Witness for C4: the mid-fade state satisfies the hypotheses, a tick at
time 0.8 yields master volume min(0.8 / 2, 1) and ticks are monotone from
time 0.8 to 1.2, while power-off keeps the 0.4 master volume. -/
theorem c4_fade_monotone_and_poweroff_witness :
    fadingState.fadeActive = true ∧ fadingState.ctxRunning = true ∧
    (0 : ℝ) < fadingState.startupFadeDuration ∧ (0.8 : ℝ) ≤ 1.2 ∧
    (fadeInMasterVolume fadingState).masterVolume = 0 ∧
    (fadeStep { fadingState with time := 0.8 }).masterVolume =
      min ((0.8 - fadingState.fadeStart) / fadingState.startupFadeDuration) 1 ∧
    (fadeStep { fadingState with time := 0.8 }).masterVolume ≤
      (fadeStep { fadingState with time := 1.2 }).masterVolume ∧
    (togglePowerOff fadingState).masterVolume = fadingState.masterVolume := by
  have hdur : (0 : ℝ) < fadingState.startupFadeDuration := by
    show (0 : ℝ) < 2
    norm_num
  have h := c4_fade_monotone_and_poweroff fadingState 0.8 1.2 rfl rfl hdur (by norm_num)
  exact ⟨rfl, rfl, hdur, by norm_num, h.1, h.2.1, h.2.2.1, h.2.2.2.2⟩

/-- Claim C3 (amended): power-off does not cancel the fade timer -- neither
the power-off branch of togglePower nor stopAllTracks clears the interval,
so a fade step still runs after power-off and overwrites the master volume
with the current progress; the interval only clears itself once progress
reaches 1. A subsequent power-on does start a fresh fade whose master
volume begins at 0 at the new start time rather than resuming the prior
progress. -/
theorem c3_fade_survives_poweroff (st : RadioState) (t : ℝ)
    (hfa : st.fadeActive = true) (hr : st.ctxRunning = true) :
    (togglePowerOff st).fadeActive = true ∧
    (stopAllTracks st).fadeActive = true ∧
    (fadeStep { togglePowerOff st with time := t }).masterVolume =
      min ((t - st.fadeStart) / st.startupFadeDuration) 1 ∧
    ((1 : ℝ) ≤ (t - st.fadeStart) / st.startupFadeDuration →
      (fadeStep { togglePowerOff st with time := t }).fadeActive = false) ∧
    (fadeInMasterVolume (togglePowerOff st)).masterVolume = 0 ∧
    (fadeInMasterVolume (togglePowerOff st)).fadeStart = (togglePowerOff st).time := by
  rw [togglePowerOff_eq]
  refine ⟨hfa, ?_, ?_, ?_, rfl, rfl⟩
  · rw [(stopAllTracks_preserves st).2.1]
    exact hfa
  · exact fadeStep_masterVolume { { st with isPoweredOn := false } with time := t } hfa hr
  · intro hone
    have hstep : (fadeStep { { st with isPoweredOn := false } with time := t }).fadeActive =
        (if (1 : ℝ) ≤ min ((t - st.fadeStart) / st.startupFadeDuration) 1 then false
         else true) :=
      fadeStep_fadeActive { { st with isPoweredOn := false } with time := t } hfa hr
    rw [min_eq_right hone, if_pos le_rfl] at hstep
    exact hstep

/-- Counterexample for C3: power-off mid-fade (fade started at time 0,
duration 2, master volume 0.4) does not cancel the fade timer: the timer
flag is still set afterward, and the fade tick at time 1.8 still runs,
overwriting the master volume with progress 0.9 -- a further fade step runs
after power-off, contradicting the claimed cancellation. -/
theorem c3_fade_cancellation_counterexample :
    (togglePowerOff fadingState).fadeActive = true ∧
    (togglePowerOff fadingState).masterVolume = 0.4 ∧
    (fadeStep { togglePowerOff fadingState with time := 1.8 }).masterVolume = 0.9 ∧
    (0.9 : ℝ) ≠ 0.4 := by
  rw [togglePowerOff_eq]
  refine ⟨rfl, rfl, ?_, by norm_num⟩
  have h : (fadeStep { { fadingState with isPoweredOn := false } with time := 1.8 }).masterVolume
      = min (((1.8 : ℝ) - 0) / 2) 1 :=
    fadeStep_masterVolume { { fadingState with isPoweredOn := false } with time := 1.8 } rfl rfl
  refine h.trans ?_
  rw [min_def]
  norm_num

/-- Witness for C3: the mid-fade state satisfies the hypotheses, power-off
leaves the timer set, the tick at time 1.8 still updates the master volume,
and re-powering on starts a fresh fade at master volume 0. -/
theorem c3_fade_survives_poweroff_witness :
    fadingState.fadeActive = true ∧ fadingState.ctxRunning = true ∧
    (togglePowerOff fadingState).fadeActive = true ∧
    (fadeStep { togglePowerOff fadingState with time := 1.8 }).masterVolume =
      min ((1.8 - fadingState.fadeStart) / fadingState.startupFadeDuration) 1 ∧
    (fadeInMasterVolume (togglePowerOff fadingState)).masterVolume = 0 := by
  have h := c3_fade_survives_poweroff fadingState 1.8 rfl rfl
  exact ⟨rfl, rfl, h.1, h.2.2.1, h.2.2.2.2.1⟩

/-- The per-station loop restricted to a single track: the conditional
update each stationVolumes entry performs on that track. -/
noncomputable def trackFold (upd : StationVolume → Track → Track)
    (svs : List StationVolume) (t : Track) : Track :=
  svs.foldl (fun t sv => if t.stationId == sv.id then upd sv t else t) t

theorem applyTrackUpdates_eq_map (upd : StationVolume → Track → Track)
    (svs : List StationVolume) (ts : List Track) :
    applyTrackUpdates upd svs ts = ts.map (trackFold upd svs) := by
  induction svs generalizing ts with
  | nil =>
    simp only [applyTrackUpdates, List.foldl_nil, trackFold]
    exact (List.map_id ts).symm
  | cons sv rest ih =>
    simp only [applyTrackUpdates, List.foldl_cons] at *
    rw [ih, List.map_map]
    rfl

theorem updTrackCurrent_stationId (v : ℝ) (t : Track) :
    (updTrackCurrent v t).stationId = t.stationId := by
  unfold updTrackCurrent
  split <;> rfl

theorem updTrackCurrent_isReady (v : ℝ) (t : Track) :
    (updTrackCurrent v t).isReady = t.isReady := by
  unfold updTrackCurrent
  split <;> rfl

theorem updTrackCurrent_isPlaying (v : ℝ) (t : Track) :
    (updTrackCurrent v t).isPlaying = (t.isPlaying || t.isReady) := by
  unfold updTrackCurrent
  cases hr : t.isReady <;> cases hp : t.isPlaying <;> simp [hr, hp]

theorem updTrackTopK_stationId (k : Bool) (v : ℝ) (t : Track) :
    (updTrackTopK k v t).stationId = t.stationId := by
  unfold updTrackTopK
  split
  · split <;> first | rfl | (split <;> rfl)
  · rfl

theorem updTrackTopK_isReady (k : Bool) (v : ℝ) (t : Track) :
    (updTrackTopK k v t).isReady = t.isReady := by
  unfold updTrackTopK
  split
  · split <;> first | rfl | (split <;> rfl)
  · rfl

theorem updTrackTopK_isPlaying (k : Bool) (v : ℝ) (t : Track) :
    (updTrackTopK k v t).isPlaying = (if t.isReady then k else t.isPlaying) := by
  unfold updTrackTopK
  cases hr : t.isReady <;> cases hp : t.isPlaying <;> cases k <;> simp [hr, hp]

theorem trackFold_stationId (upd : StationVolume → Track → Track)
    (hid : ∀ sv t, (upd sv t).stationId = t.stationId)
    (svs : List StationVolume) (t : Track) :
    (trackFold upd svs t).stationId = t.stationId := by
  induction svs generalizing t with
  | nil => rfl
  | cons sv rest ih =>
    simp only [trackFold, List.foldl_cons] at *
    rw [ih]
    split
    · exact hid sv t
    · rfl

theorem trackFold_isReady (upd : StationVolume → Track → Track)
    (hready : ∀ sv t, (upd sv t).isReady = t.isReady)
    (svs : List StationVolume) (t : Track) :
    (trackFold upd svs t).isReady = t.isReady := by
  induction svs generalizing t with
  | nil => rfl
  | cons sv rest ih =>
    simp only [trackFold, List.foldl_cons] at *
    rw [ih]
    split
    · exact hready sv t
    · rfl

theorem trackFold_currentUpd_isPlaying (mv : ℝ) (svs : List StationVolume) (t : Track) :
    (trackFold (currentUpd mv) svs t).isPlaying =
      (t.isPlaying || (t.isReady && svs.any (fun sv => t.stationId == sv.id))) := by
  induction svs generalizing t with
  | nil => simp [trackFold]
  | cons sv rest ih =>
    simp only [trackFold, List.foldl_cons] at *
    rw [List.any_cons]
    by_cases hm : (t.stationId == sv.id) = true
    · rw [if_pos hm, ih, hm]
      simp only [currentUpd, updTrackCurrent_isPlaying, updTrackCurrent_isReady,
        updTrackCurrent_stationId]
      cases hp : t.isPlaying <;> cases hr2 : t.isReady <;>
        cases ha : rest.any (fun sv2 => t.stationId == sv2.id) <;> simp
    · rw [if_neg hm, ih]
      rw [Bool.not_eq_true] at hm
      rw [hm]
      simp

theorem trackFold_topKUpd_isPlaying (ids : List String) (mv : ℝ)
    (svs : List StationVolume) (t : Track) :
    (trackFold (topKUpd ids mv) svs t).isPlaying =
      (if (t.isReady && svs.any (fun sv => t.stationId == sv.id)) = true
       then ids.contains t.stationId else t.isPlaying) := by
  induction svs generalizing t with
  | nil => simp [trackFold]
  | cons sv rest ih =>
    simp only [trackFold, List.foldl_cons] at *
    rw [List.any_cons]
    by_cases hm : (t.stationId == sv.id) = true
    · have hids : ids.contains sv.id = ids.contains t.stationId := by
        rw [eq_of_beq hm]
      rw [if_pos hm, ih, hm]
      simp only [topKUpd, updTrackTopK_isPlaying, updTrackTopK_isReady,
        updTrackTopK_stationId, hids]
      cases hr2 : t.isReady <;>
        cases ha : rest.any (fun sv2 => t.stationId == sv2.id) <;> simp
    · rw [if_neg hm, ih]
      rw [Bool.not_eq_true] at hm
      rw [hm]
      simp

theorem updateMixing_tracks (st : RadioState) (d : ℝ)
    (hp : st.ctxPresent = true) (hr : st.ctxRunning = true) :
    (updateMixing st d).stationTracks =
      st.stationTracks.map (trackFold (currentUpd st.masterVolume)
        (sortedStationVolumes st.stations st.stationTracks d)) := by
  simp only [updateMixing]
  rw [if_neg (by simp [hp, hr])]
  split <;> simp only [applyTrackUpdates_eq_map]

theorem updateMixingTopK_tracks (st : RadioState) (d : ℝ)
    (hp : st.ctxPresent = true) (hr : st.ctxRunning = true) :
    (updateMixingTopK st d).stationTracks =
      st.stationTracks.map (trackFold
        (topKUpd ((topKEntries st.stations st.stationTracks d).map (fun sv => sv.id))
          st.masterVolume)
        (sortedStationVolumes st.stations st.stationTracks d)) := by
  simp only [updateMixingTopK]
  rw [if_neg (by simp [hp, hr])]
  simp only [applyTrackUpdates_eq_map]

theorem count_playing_le_of_ids (ts : List Track) (ids : List String)
    (hnd : (ts.map (fun t => t.stationId)).Nodup)
    (hsub : ∀ t ∈ ts, t.isPlaying = true → t.stationId ∈ ids) :
    (ts.filter (fun t => t.isPlaying)).length ≤ ids.length := by
  have hsubl : List.Sublist ((ts.filter (fun t => t.isPlaying)).map (fun t => t.stationId))
      (ts.map (fun t => t.stationId)) :=
    (List.filter_sublist ts).map (fun t => t.stationId)
  have hnd2 : ((ts.filter (fun t => t.isPlaying)).map (fun t => t.stationId)).Nodup :=
    hnd.sublist hsubl
  have hmem : ∀ a ∈ (ts.filter (fun t => t.isPlaying)).map (fun t => t.stationId),
      a ∈ ids := by
    intro a ha
    obtain ⟨t, ht, rfl⟩ := List.mem_map.mp ha
    obtain ⟨ht2, hplay⟩ := List.mem_filter.mp ht
    exact hsub t ht2 hplay
  have h1 : ((ts.filter (fun t => t.isPlaying)).map (fun t => t.stationId)).toFinset.card =
      ((ts.filter (fun t => t.isPlaying)).map (fun t => t.stationId)).length :=
    List.toFinset_card_of_nodup hnd2
  have h2 : ((ts.filter (fun t => t.isPlaying)).map (fun t => t.stationId)).toFinset ⊆
      ids.toFinset := by
    intro a ha
    rw [List.mem_toFinset] at ha ⊢
    exact hmem a ha
  calc (ts.filter (fun t => t.isPlaying)).length
      = ((ts.filter (fun t => t.isPlaying)).map (fun t => t.stationId)).length :=
        (List.length_map _ _).symm
    _ = ((ts.filter (fun t => t.isPlaying)).map (fun t => t.stationId)).toFinset.card :=
        h1.symm
    _ ≤ ids.toFinset.card := Finset.card_le_card h2
    _ ≤ ids.length := List.toFinset_card_le ids

theorem topKUpd_stationId (ids : List String) (mv : ℝ) (sv : StationVolume) (t : Track) :
    (topKUpd ids mv sv t).stationId = t.stationId := by
  unfold topKUpd
  exact updTrackTopK_stationId _ _ _

theorem topKUpd_isReady (ids : List String) (mv : ℝ) (sv : StationVolume) (t : Track) :
    (topKUpd ids mv sv t).isReady = t.isReady := by
  unfold topKUpd
  exact updTrackTopK_isReady _ _ _

theorem match_any_of_station (stations : List Station) (tracks : List Track) (d : ℝ)
    (t : Track) (ht : t ∈ tracks) (s : Station) (hs : s ∈ stations)
    (hid : s.id = t.stationId) :
    (sortedStationVolumes stations tracks d).any
      (fun sv => t.stationId == sv.id) = true := by
  have hbeq : (t.stationId == s.id) = true := by
    rw [hid]
    exact beq_self_eq_true _
  have hany : tracks.any (fun tr => tr.stationId == s.id) = true :=
    List.any_eq_true.mpr ⟨t, ht, hbeq⟩
  have hsv : (⟨s.id, calculateStationVolume s d⟩ : StationVolume) ∈
      stationVolumesOf stations tracks d := by
    unfold stationVolumesOf
    apply List.mem_filterMap.mpr
    exact ⟨s, hs, by rw [if_pos hany]⟩
  have hsv2 : (⟨s.id, calculateStationVolume s d⟩ : StationVolume) ∈
      sortedStationVolumes stations tracks d := by
    unfold sortedStationVolumes
    exact (mem_sortDescBy _ _ _).mpr hsv
  exact List.any_eq_true.mpr ⟨⟨s.id, calculateStationVolume s d⟩, hsv2, hbeq⟩

/-- Claim C1 (amended): in the top-K revision of updateMixing (the one in
src/unnamed/part_000), given that playing implies ready, that every track
belongs to a catalog station, and that track ids are unique, every mix
update leaves at most K = 3 station tracks playing: afterwards every playing
track is one of the top-3 selected ids (so every source leaving the selected
set has been stopped, its isPlaying flag cleared by track.stop, not merely
its gain zeroed) and every playing track is ready (a source entering the
selected set is started only if ready). The current revision in
src/radio-audio.js instead keeps every ready source playing and stops
nothing (see the counterexample). -/
theorem c1_topk_bounded_playing (st : RadioState) (d : ℝ)
    (hp : st.ctxPresent = true) (hr : st.ctxRunning = true)
    (hinv : ∀ t ∈ st.stationTracks, t.isPlaying = true → t.isReady = true)
    (hcov : ∀ t ∈ st.stationTracks, ∃ s ∈ st.stations, s.id = t.stationId)
    (hnd : (st.stationTracks.map (fun t => t.stationId)).Nodup) :
    playingCount (updateMixingTopK st d) ≤ 3 ∧
    (∀ t ∈ (updateMixingTopK st d).stationTracks, t.isPlaying = true →
      t.stationId ∈ (topKEntries st.stations st.stationTracks d).map (fun sv => sv.id)) ∧
    (∀ t ∈ (updateMixingTopK st d).stationTracks, t.isPlaying = true →
      t.isReady = true) := by
  have htr := updateMixingTopK_tracks st d hp hr
  have hkey : ∀ t ∈ st.stationTracks,
      (trackFold (topKUpd
          ((topKEntries st.stations st.stationTracks d).map (fun sv => sv.id))
          st.masterVolume)
        (sortedStationVolumes st.stations st.stationTracks d) t).isPlaying = true →
      t.stationId ∈ (topKEntries st.stations st.stationTracks d).map (fun sv => sv.id) ∧
        t.isReady = true := by
    intro t ht hplay
    rw [trackFold_topKUpd_isPlaying] at hplay
    by_cases hcond : (t.isReady && (sortedStationVolumes st.stations st.stationTracks
        d).any (fun sv => t.stationId == sv.id)) = true
    · rw [if_pos hcond] at hplay
      refine ⟨?_, (Bool.and_eq_true _ _).mp hcond |>.1⟩
      simpa using hplay
    · rw [if_neg hcond] at hplay
      have hready := hinv t ht hplay
      obtain ⟨s, hs, hsid⟩ := hcov t ht
      have hany := match_any_of_station st.stations st.stationTracks d t ht s hs hsid
      exact absurd (by simp [hready, hany]) hcond
  have hsid : ∀ t, (trackFold (topKUpd
      ((topKEntries st.stations st.stationTracks d).map (fun sv => sv.id))
      st.masterVolume)
      (sortedStationVolumes st.stations st.stationTracks d) t).stationId =
      t.stationId :=
    fun t => trackFold_stationId _ (topKUpd_stationId _ _) _ t
  have hsready : ∀ t, (trackFold (topKUpd
      ((topKEntries st.stations st.stationTracks d).map (fun sv => sv.id))
      st.masterVolume)
      (sortedStationVolumes st.stations st.stationTracks d) t).isReady =
      t.isReady :=
    fun t => trackFold_isReady _ (topKUpd_isReady _ _) _ t
  have hconj2 : ∀ t ∈ (updateMixingTopK st d).stationTracks, t.isPlaying = true →
      t.stationId ∈ (topKEntries st.stations st.stationTracks d).map
        (fun sv => sv.id) := by
    intro t' ht' hplay'
    rw [htr] at ht'
    obtain ⟨t, ht, rfl⟩ := List.mem_map.mp ht'
    rw [hsid t]
    exact (hkey t ht hplay').1
  have hconj3 : ∀ t ∈ (updateMixingTopK st d).stationTracks, t.isPlaying = true →
      t.isReady = true := by
    intro t' ht' hplay'
    rw [htr] at ht'
    obtain ⟨t, ht, rfl⟩ := List.mem_map.mp ht'
    rw [hsready t]
    exact (hkey t ht hplay').2
  refine ⟨?_, hconj2, hconj3⟩
  unfold playingCount
  rw [htr]
  have hnd2 : (((st.stationTracks.map (trackFold (topKUpd
      ((topKEntries st.stations st.stationTracks d).map (fun sv => sv.id))
      st.masterVolume)
      (sortedStationVolumes st.stations st.stationTracks d))).map
        (fun t => t.stationId)).Nodup) := by
    rw [List.map_map]
    have : (fun t => Track.stationId (trackFold _ _ t)) = fun (t : Track) => t.stationId :=
      funext fun t => hsid t
    rw [show ((fun t => t.stationId) ∘ (trackFold (topKUpd
        ((topKEntries st.stations st.stationTracks d).map (fun sv => sv.id))
        st.masterVolume)
        (sortedStationVolumes st.stations st.stationTracks d))) =
        fun (t : Track) => t.stationId from funext fun t => hsid t]
    exact hnd
  have hsub : ∀ t ∈ st.stationTracks.map (trackFold (topKUpd
      ((topKEntries st.stations st.stationTracks d).map (fun sv => sv.id))
      st.masterVolume)
      (sortedStationVolumes st.stations st.stationTracks d)),
      t.isPlaying = true →
      t.stationId ∈ (topKEntries st.stations st.stationTracks d).map
        (fun sv => sv.id) := by
    intro t ht hplay
    apply hconj2
    · rw [htr]
      exact ht
    · exact hplay
  calc ((st.stationTracks.map (trackFold (topKUpd
        ((topKEntries st.stations st.stationTracks d).map (fun sv => sv.id))
        st.masterVolume)
        (sortedStationVolumes st.stations st.stationTracks d))).filter
          (fun t => t.isPlaying)).length
      ≤ ((topKEntries st.stations st.stationTracks d).map (fun sv => sv.id)).length :=
        count_playing_le_of_ids _ _ hnd2 hsub
    _ = (topKEntries st.stations st.stationTracks d).length := List.length_map _ _
    _ ≤ 3 := by
        unfold topKEntries
        exact List.length_take_le 3 _

theorem updateMixing_ready_tracks_all_play (st : RadioState) (d : ℝ)
    (hp : st.ctxPresent = true) (hr : st.ctxRunning = true)
    (hready : ∀ t ∈ st.stationTracks, t.isReady = true)
    (hcov : ∀ t ∈ st.stationTracks, ∃ s ∈ st.stations, s.id = t.stationId) :
    playingCount (updateMixing st d) = st.stationTracks.length := by
  have htr := updateMixing_tracks st d hp hr
  unfold playingCount
  rw [htr]
  have hall : ∀ t' ∈ st.stationTracks.map (trackFold (currentUpd st.masterVolume)
      (sortedStationVolumes st.stations st.stationTracks d)),
      (fun t => t.isPlaying) t' = true := by
    intro t' ht'
    obtain ⟨t, ht, rfl⟩ := List.mem_map.mp ht'
    simp only [trackFold_currentUpd_isPlaying]
    obtain ⟨s, hs, hsid⟩ := hcov t ht
    have hany := match_any_of_station st.stations st.stationTracks d t ht s hs hsid
    rw [hready t ht, hany]
    simp
  rw [List.filter_eq_self.mpr hall, List.length_map]

/-- Four stations centered at dial position 90, descending strengths. -/
noncomputable def fourStations : List Station :=
  [⟨"s1", 90, 0.8, 1⟩, ⟨"s2", 90, 0.6, 1⟩, ⟨"s3", 90, 0.4, 1⟩, ⟨"s4", 90, 0.2, 1⟩]

/-- Ready, not-yet-playing tracks for the four stations. -/
noncomputable def fourTracks : List Track :=
  [⟨"s1", true, false, 0⟩, ⟨"s2", true, false, 0⟩, ⟨"s3", true, false, 0⟩,
    ⟨"s4", true, false, 0⟩]

/-- A powered-on radio with four ready stations loaded. -/
noncomputable def fourStationState : RadioState :=
  { idleState with
      isPoweredOn := true
      masterVolume := 1
      stations := fourStations
      stationTracks := fourTracks }

/-- Counterexample for C1: on the current src/radio-audio.js revision of
updateMixing, a mix update over four ready stations leaves all 4 tracks
playing -- more than K = 3 -- because this revision starts every ready track
and never stops any (it only scales gains). -/
theorem c1_current_mixing_counterexample :
    playingCount (updateMixing fourStationState 90) = 4 ∧ 3 < 4 := by
  have hready : ∀ t ∈ fourStationState.stationTracks, t.isReady = true := by decide
  have hcov : ∀ t ∈ fourStationState.stationTracks,
      ∃ s ∈ fourStationState.stations, s.id = t.stationId := by decide
  have h := updateMixing_ready_tracks_all_play fourStationState 90 rfl rfl hready hcov
  rw [h]
  exact ⟨rfl, by norm_num⟩

/-- Witness for C1: the four-station state satisfies all hypotheses and the
top-K revision leaves at most 3 tracks playing after the update. -/
theorem c1_topk_bounded_playing_witness :
    fourStationState.ctxPresent = true ∧ fourStationState.ctxRunning = true ∧
    (∀ t ∈ fourStationState.stationTracks, t.isPlaying = true → t.isReady = true) ∧
    (∀ t ∈ fourStationState.stationTracks,
      ∃ s ∈ fourStationState.stations, s.id = t.stationId) ∧
    (fourStationState.stationTracks.map (fun t => t.stationId)).Nodup ∧
    playingCount (updateMixingTopK fourStationState 90) ≤ 3 := by
  have hinv : ∀ t ∈ fourStationState.stationTracks,
      t.isPlaying = true → t.isReady = true := by decide
  have hcov : ∀ t ∈ fourStationState.stationTracks,
      ∃ s ∈ fourStationState.stations, s.id = t.stationId := by decide
  have hnd : (fourStationState.stationTracks.map (fun t => t.stationId)).Nodup := by
    decide
  exact ⟨rfl, rfl, hinv, hcov, hnd,
    (c1_topk_bounded_playing fourStationState 90 rfl rfl hinv hcov hnd).1⟩

/-- Claim C7 (amended): the station source selector (the topK slice of the
part_000 updateMixing) never returns more than K = 3 entries, and every
returned entry is one of the computed station volumes; it does not,
however, exclude zero-volume stations -- the slice simply takes the first
three of the volume-sorted list, so when fewer than K stations have nonzero
volume, zero-volume stations fill the remaining slots. -/
theorem c7_selector_at_most_k (stations : List Station) (tracks : List Track)
    (d : ℝ) :
    (topKEntries stations tracks d).length ≤ 3 ∧
    ∀ e ∈ topKEntries stations tracks d, e ∈ stationVolumesOf stations tracks d := by
  constructor
  · unfold topKEntries
    exact List.length_take_le 3 _
  · intro e he
    unfold topKEntries at he
    have h1 := List.mem_of_mem_take he
    unfold sortedStationVolumes at h1
    exact (mem_sortDescBy _ _ _).mp h1

theorem calcVolume_zero_strength (s : Station) (d : ℝ) (h : s.strength = 0) :
    calculateStationVolume s d = 0 := by
  simp only [calculateStationVolume, h, zero_mul]
  rw [min_eq_right (by norm_num : (0 : ℝ) ≤ 1), max_self]

theorem calcVolume_center_strength (s : Station) (d : ℝ) (hd : d = s.position)
    (h0 : 0 ≤ s.strength) (h1 : s.strength ≤ 1) :
    calculateStationVolume s d = s.strength := by
  subst hd
  simp only [calculateStationVolume, sub_self, abs_zero, mul_zero, zero_mul,
    neg_zero, zero_div, Real.exp_zero, mul_one]
  rw [min_eq_right h1, max_eq_right h0]

/-- Stations p2, p3, p4 have strength 0, so their computed volume is exactly
0 at every dial position; p1 has strength 1 at the dial center. -/
noncomputable def zeroStations : List Station :=
  [⟨"p1", 90, 1, 1⟩, ⟨"p2", 90, 0, 1⟩, ⟨"p3", 90, 0, 1⟩, ⟨"p4", 90, 0, 1⟩]

/-- Ready tracks for the four zero-test stations. -/
noncomputable def zeroTracks : List Track :=
  [⟨"p1", true, false, 0⟩, ⟨"p2", true, false, 0⟩, ⟨"p3", true, false, 0⟩,
    ⟨"p4", true, false, 0⟩]

theorem zero_station_volumes :
    stationVolumesOf zeroStations zeroTracks 90 =
      [⟨"p1", 1⟩, ⟨"p2", 0⟩, ⟨"p3", 0⟩, ⟨"p4", 0⟩] := by
  have h1 : calculateStationVolume ⟨"p1", 90, 1, 1⟩ 90 = 1 :=
    calcVolume_center_strength _ _ rfl (by norm_num) (by norm_num)
  have h2 : calculateStationVolume ⟨"p2", 90, 0, 1⟩ 90 = 0 :=
    calcVolume_zero_strength _ _ rfl
  have h3 : calculateStationVolume ⟨"p3", 90, 0, 1⟩ 90 = 0 :=
    calcVolume_zero_strength _ _ rfl
  have h4 : calculateStationVolume ⟨"p4", 90, 0, 1⟩ 90 = 0 :=
    calcVolume_zero_strength _ _ rfl
  simp [stationVolumesOf, zeroStations, zeroTracks, h1, h2, h3, h4]

theorem zero_station_topK :
    topKEntries zeroStations zeroTracks 90 = [⟨"p1", 1⟩, ⟨"p2", 0⟩, ⟨"p3", 0⟩] := by
  unfold topKEntries sortedStationVolumes
  rw [zero_station_volumes]
  norm_num [sortDescBy, insertDescBy]

/-- Counterexample for C7: with station p1 (strength 1) and stations p2,
p3, p4 (strength 0) all centered at dial 90, only one station has nonzero
volume -- fewer than K = 3 -- yet the selector returns three entries
including the zero-volume stations p2 and p3: it does not select only the
stations with volume greater than 0. -/
theorem c7_zero_volume_selected_counterexample :
    topKEntries zeroStations zeroTracks 90 = [⟨"p1", 1⟩, ⟨"p2", 0⟩, ⟨"p3", 0⟩] ∧
    ((stationVolumesOf zeroStations zeroTracks 90).filter
      (fun sv => decide (0 < sv.volume))).length = 1 ∧ (1 : ℕ) < 3 := by
  refine ⟨zero_station_topK, ?_, by norm_num⟩
  rw [zero_station_volumes]
  norm_num [List.filter]
